import Mathlib

/-!
# Shallow embedding of the iRMC virtual-media boot driver

Source file: ironic/drivers/modules/irmc/boot.py.

The driver orchestrates three external effectful subsystems: the shared
filesystem the artifacts are staged on, the out-of-band iRMC controller
(virtual CD / virtual floppy attach and detach, boot device selection)
and the durable node record.  All three are modelled by an explicit
state record `SimState`.  Every modelled call returns the successor
state together with the list of externally visible operations it
performed (`List Op`), or a typed error (`Err`) mirroring the exception
the Python code raises.  External collaborator functions that are not
part of the source file under inspection are modelled from the spec and
marked as such in their doc comments.
-/

namespace IrmcBoot

/-- Provisioning-phase constant, from ironic.common.states. -/
def ACTIVE : String := "active"

/-- Provisioning-phase constant, from ironic.common.states. -/
def DEPLOYING : String := "deploying"

/-- Provisioning-phase constant, from ironic.common.states. -/
def CLEANING : String := "cleaning"

/-- Boot-device constant, from ironic.common.boot_devices. -/
def CDROM : String := "cdrom"

/-- Boot-device constant, from ironic.common.boot_devices. -/
def DISK : String := "disk"

/-- The configuration options the modelled code reads (CONF.irmc).
`remote_image_share_root` is the local path where the share is mounted
(used for writing files); `remote_image_share_name` is the NFS/CIFS
export name handed to the iRMC controller. -/
structure Conf where
  remote_image_share_root : String
  remote_image_share_name : String
deriving DecidableEq

/-- The node.driver_info keys read by the driver. -/
structure DriverInfo where
  irmc_deploy_iso : Option String
deriving DecidableEq

/-- The node.instance_info keys read by the driver. -/
structure InstanceInfo where
  irmc_boot_iso : Option String
  image_source : Option String
  kernel : Option String
  ramdisk : Option String
deriving DecidableEq

/-- The node.driver_internal_info keys read and written by the driver. -/
structure DriverInternalInfo where
  irmc_boot_iso : Option String
  root_uuid_or_disk_id : Option String
  is_whole_disk_image : Bool
deriving DecidableEq

/-- The fields of an ironic node the driver reads.  `boot_option` stands
for deploy_utils.get_boot_option(node) and `deploy_nic_mac` for
deploy_utils.get_single_nic_with_vif_port_id(task); both helpers live
outside the source file and are modelled from the spec as node-derived
values (the spec describes them as the target boot mode and the
network-boot interface identifier selected from the node's provisioning
network attachments). -/
structure Node where
  uuid : String
  provision_state : String
  driver_info : DriverInfo
  instance_info : InstanceInfo
  driver_internal_info : DriverInternalInfo
  boot_option : String
  deploy_nic_mac : String
deriving DecidableEq

/-- Success and failure switches of the external collaborators: the iRMC
SCCI transport, images.fetch, the image builders, shutil.copyfile and
the underlying os.unlink. -/
structure Env where
  scciOk : Bool
  fetchOk : Bool
  buildOk : Bool
  copyOk : Bool
  unlinkRaises : Bool
deriving DecidableEq

/-- The combined state of the shared filesystem (`share` is the list of
full paths of files present; no path appears twice), the iRMC virtual
media (`cdAttached`/`fdAttached` hold the attached file names), the
last boot-device selection, the node record and its persisted copy, and
whether the configured share root is a directory and a mount point. -/
structure SimState where
  node : Node
  savedNode : Node
  share : List String
  cdAttached : Option String
  fdAttached : Option String
  bootDevice : Option (String × Bool)
  shareRootIsDir : Bool
  shareRootMounted : Bool
deriving DecidableEq

/-- The typed errors, mirroring the exceptions raised by the source. -/
inductive Err where
  | missingParameterValue (param : String)
  | invalidParameterValue (msg : String)
  | sharedFsNotMounted (share : String)
  | irmcOperationError (operation : String)
  | imageRefValidationFailed (href : String)
  | imageCreationFailed (msg : String)
  | keyError (key : String)
deriving DecidableEq

/-- The externally visible operations a call performs, in order. -/
inductive Op where
  | detachCD
  | detachFD
  | attachCD (filename : String)
  | attachFD (filename : String)
  | removeFile (fullpath : String)
  | fetchImage (href : String) (fullpath : String)
  | createBootIso (fullpath : String)
  | createFloppy (fullpath : String) (params : List (String × String))
  | setBootDevice (device : String) (persistent : Bool)
  | nodeSave
deriving DecidableEq

/-- Result type of a modelled stateful call. -/
abbrev Res := Except Err (SimState × List Op)

/-- Sequencing of two stateful calls; traces are concatenated and an
error short-circuits, like a Python exception. -/
def bindRes (r : Res) (f : SimState → Res) : Res :=
  match r with
  | .error e => .error e
  | .ok (s, t) =>
    match f s with
    | .error e => .error e
    | .ok (s', t') => .ok (s', t ++ t')

/-- os.path.join for the share-relative file names used by the driver
(the second argument is always a bare file name). -/
def osPathJoin (a b : String) : String := a ++ "/" ++ b

/-- Python truthiness of an optional string (None and the empty string
are falsy). -/
def truthyStr : Option String → Bool
  | none => false
  | some v => !(v == "")

/-- Python truthiness of the optional parameters dictionary of
_setup_vmedia_for_boot (None and an empty dict are falsy). -/
def truthyParams : Option (List (String × String)) → Bool
  | none => false
  | some l => !l.isEmpty

/-- Whether lists of characters `sub` occurs as a prefix of `l`. -/
def charsPre : List Char → List Char → Bool
  | [], _ => true
  | _ :: _, [] => false
  | a :: as, b :: bs => a == b && charsPre as bs

/-- Whether `sub` occurs as a contiguous sublist of the second list. -/
def charsSub (sub : List Char) : List Char → Bool
  | [] => charsPre sub []
  | l@(_ :: tl) => charsPre sub l || charsSub sub tl

/-- Modelled from the spec: service_utils.is_image_href_ordinary_file_name
is not under the source tree; per the spec (IsOrdinaryFileReference) it
distinguishes a bare share-local file name from a reference that needs
fetching; a reference with a URL scheme separator is not a bare file
name. -/
def is_image_href_ordinary_file_name (href : String) : Bool :=
  !(charsSub "://".data href.data)

/-- Deletion of a path from the modelled filesystem. -/
def removePath (share : List String) (p : String) : List String :=
  share.filter (fun q => q != p)

/-- Effect of unlink_without_raise on the modelled share: no effect when
the underlying unlink raises, deletion otherwise. -/
def unlinkShare (env : Env) (share : List String) (p : String) : List String :=
  if env.unlinkRaises then share else removePath share p

/-- Modelled from the spec: ironic_lib.utils.unlink_without_raise is not
under the source tree; per the spec RemoveArtifact is a best-effort
delete that treats a missing file as success and logs and swallows
underlying I/O errors, so the call always returns normally. -/
def unlink_without_raise (env : Env) (s : SimState) (fullpath : String) :
    SimState × List Op :=
  ({ s with share := unlinkShare env s.share fullpath }, [Op.removeFile fullpath])

/-- boot.py _remove_share_file: joins the file name with
CONF.irmc.remote_image_share_name and unlinks without raising. -/
def _remove_share_file (conf : Conf) (env : Env) (s : SimState)
    (share_filename : String) : SimState × List Op :=
  unlink_without_raise env s
    (osPathJoin conf.remote_image_share_name share_filename)

/-- Addition of a path to the modelled filesystem (writing a file). -/
def addShareFile (s : SimState) (p : String) : SimState :=
  { s with share := if p ∈ s.share then s.share else p :: s.share }

/-- boot.py _get_deploy_iso_name. -/
def _get_deploy_iso_name (node : Node) : String :=
  "deploy-" ++ node.uuid ++ ".iso"

/-- boot.py _get_boot_iso_name. -/
def _get_boot_iso_name (node : Node) : String :=
  "boot-" ++ node.uuid ++ ".iso"

/-- boot.py _get_floppy_image_name. -/
def _get_floppy_image_name (node : Node) : String :=
  "image-" ++ node.uuid ++ ".img"

/-- boot.py _attach_virtual_cd: issues the SCCI set-params and
MOUNT_CD commands; raises IRMCOperationError on an SCCI client error. -/
def _attach_virtual_cd (env : Env) (s : SimState)
    (bootable_iso_filename : String) : Res :=
  if env.scciOk then
    .ok ({ s with cdAttached := some bootable_iso_filename },
      [Op.attachCD bootable_iso_filename])
  else .error (Err.irmcOperationError "Inserting virtual cdrom")

/-- boot.py _detach_virtual_cd: issues the SCCI UNMOUNT_CD command,
unconditionally; raises IRMCOperationError on an SCCI client error. -/
def _detach_virtual_cd (env : Env) (s : SimState) : Res :=
  if env.scciOk then .ok ({ s with cdAttached := none }, [Op.detachCD])
  else .error (Err.irmcOperationError "Ejecting virtual cdrom")

/-- boot.py _attach_virtual_fd. -/
def _attach_virtual_fd (env : Env) (s : SimState)
    (floppy_image_filename : String) : Res :=
  if env.scciOk then
    .ok ({ s with fdAttached := some floppy_image_filename },
      [Op.attachFD floppy_image_filename])
  else .error (Err.irmcOperationError "Inserting virtual floppy")

/-- boot.py _detach_virtual_fd. -/
def _detach_virtual_fd (env : Env) (s : SimState) : Res :=
  if env.scciOk then .ok ({ s with fdAttached := none }, [Op.detachFD])
  else .error (Err.irmcOperationError "Ejecting virtual floppy")

/-- Modelled from the spec: manager_utils.node_set_boot_device is not
under the source tree; per the spec SetBootDevice(device, persistent)
records the requested boot device, and a call site that passes no
persistent flag selects the device non-persistently (the spec describes
the prepare_ramdisk call, which passes no flag, as setting
non-persistent CD boot).  Call sites below pass the flag explicitly. -/
def node_set_boot_device (s : SimState) (device : String)
    (persistent : Bool) : SimState × List Op :=
  ({ s with bootDevice := some (device, persistent) },
    [Op.setBootDevice device persistent])

/-- Modelled from the spec: the node store's Save contract is not under
the source tree; task.node.save() persists the mutated node record. -/
def node_save (s : SimState) : SimState × List Op :=
  ({ s with savedNode := s.node }, [Op.nodeSave])

/-- boot.py _parse_config_option: checks that
CONF.irmc.remote_image_share_root is a directory. -/
def _parse_config_option (s : SimState) : Except Err Unit :=
  if s.shareRootIsDir then .ok ()
  else .error (Err.invalidParameterValue "remote_image_share_root is not a directory")

/-- boot.py check_share_fs_mounted: validates the config option and then
requires the share root to be a mount point, raising
IRMCSharedFileSystemNotMounted otherwise. -/
def check_share_fs_mounted (conf : Conf) (s : SimState) : Except Err Unit :=
  match _parse_config_option s with
  | .error e => .error e
  | .ok _ =>
    if s.shareRootMounted then .ok ()
    else .error (Err.sharedFsNotMounted conf.remote_image_share_root)

/-- boot.py IRMCVirtualMediaBoot.__init__: the only work of the
constructor is the shared-filesystem mount check. -/
def IRMCVirtualMediaBoot.init (conf : Conf) (s : SimState) : Except Err Unit :=
  check_share_fs_mounted conf s

/-- boot.py _prepare_floppy_image: builds a vfat image holding the
parameters in a temporary file and copies it into the share root under
the node-derived floppy name; returns the floppy file name. -/
def _prepare_floppy_image (conf : Conf) (env : Env) (s : SimState)
    (params : List (String × String)) :
    Except Err (SimState × List Op × String) :=
  let floppy_filename := _get_floppy_image_name s.node
  let floppy_fullpathname :=
    osPathJoin conf.remote_image_share_root floppy_filename
  if env.buildOk then
    if env.copyOk then
      .ok (addShareFile s floppy_fullpathname,
        [Op.createFloppy floppy_fullpathname params], floppy_filename)
    else .error (Err.irmcOperationError "Copying floppy image file")
  else .error (Err.imageCreationFailed "vfat image")

/-- boot.py _setup_vmedia_for_boot: detach CD, detach floppy, then (only
when parameters are truthy) stage and attach the parameter floppy, and
finally attach the CD with the given ISO file name. -/
def _setup_vmedia_for_boot (conf : Conf) (env : Env) (s : SimState)
    (bootable_iso_filename : String)
    (parameters : Option (List (String × String))) : Res :=
  bindRes (_detach_virtual_cd env s) (fun s1 =>
  bindRes (_detach_virtual_fd env s1) (fun s2 =>
  bindRes
    (if truthyParams parameters then
      match _prepare_floppy_image conf env s2 (parameters.getD []) with
      | .error e => .error e
      | .ok (s3, t3, floppy_image_filename) =>
        match _attach_virtual_fd env s3 floppy_image_filename with
        | .error e => .error e
        | .ok (s4, t4) => .ok (s4, t3 ++ t4)
    else .ok (s2, []))
    (fun s5 => _attach_virtual_cd env s5 bootable_iso_filename)))

/-- boot.py _setup_deploy_iso: resolves the deploy ISO (bare file name
used directly, anything else fetched into the node-derived deploy name),
runs the vmedia setup sequence with the ramdisk options, and sets the
CD as the (non-persistent) boot device. -/
def _setup_deploy_iso (conf : Conf) (env : Env) (s : SimState)
    (ramdisk_options : List (String × String)) : Res :=
  match s.node.driver_info.irmc_deploy_iso with
  | none => .error (Err.keyError "irmc_deploy_iso")
  | some deploy_iso_href =>
    bindRes
      (if is_image_href_ordinary_file_name deploy_iso_href then .ok (s, [])
      else
        let fullpath :=
          osPathJoin conf.remote_image_share_root (_get_deploy_iso_name s.node)
        if env.fetchOk then
          .ok (addShareFile s fullpath, [Op.fetchImage deploy_iso_href fullpath])
        else .error (Err.imageRefValidationFailed deploy_iso_href))
      (fun s1 =>
        let deploy_iso_file :=
          if is_image_href_ordinary_file_name deploy_iso_href then
            deploy_iso_href
          else _get_deploy_iso_name s1.node
        bindRes (_setup_vmedia_for_boot conf env s1 deploy_iso_file
            (some ramdisk_options))
          (fun s2 => .ok (node_set_boot_device s2 CDROM false)))

/-- boot.py _cleanup_vmedia_boot: detach CD and floppy unconditionally,
then best-effort removal of the floppy and deploy ISO artifacts. -/
def _cleanup_vmedia_boot (conf : Conf) (env : Env) (s : SimState) : Res :=
  bindRes (_detach_virtual_cd env s) (fun s1 =>
  bindRes (_detach_virtual_fd env s1) (fun s2 =>
    let r3 := _remove_share_file conf env s2 (_get_floppy_image_name s2.node)
    let r4 := _remove_share_file conf env r3.1 (_get_deploy_iso_name r3.1.node)
    .ok (r4.1, r3.2 ++ r4.2)))

/-- Modelled from the spec: deploy_utils.get_image_instance_info is not
under the source tree; it extracts the required image_source reference
from the node's instance metadata and reports it missing otherwise. -/
def get_image_instance_info (s : SimState) : Except Err String :=
  match s.node.instance_info.image_source with
  | none => .error (Err.missingParameterValue "image_source")
  | some src =>
    if src == "" then .error (Err.missingParameterValue "image_source")
    else .ok src

/-- boot.py _parse_driver_info: requires driver_info irmc_deploy_iso;
when it is a bare file name the file must exist under the share root. -/
def _parse_driver_info (conf : Conf) (s : SimState) : Except Err String :=
  match s.node.driver_info.irmc_deploy_iso with
  | none => .error (Err.missingParameterValue "irmc_deploy_iso")
  | some href =>
    if href == "" then .error (Err.missingParameterValue "irmc_deploy_iso")
    else if is_image_href_ordinary_file_name href then
      if osPathJoin conf.remote_image_share_root href ∈ s.share then .ok href
      else .error (Err.invalidParameterValue "Deploy ISO file not found")
    else .ok href

/-- boot.py _parse_instance_info: picks up instance_info irmc_boot_iso
when truthy; when it is a bare file name the file must exist under the
share root. -/
def _parse_instance_info (conf : Conf) (s : SimState) :
    Except Err (Option String) :=
  match s.node.instance_info.irmc_boot_iso with
  | none => .ok none
  | some href =>
    if href == "" then .ok none
    else if is_image_href_ordinary_file_name href then
      if osPathJoin conf.remote_image_share_root href ∈ s.share then
        .ok (some href)
      else .error (Err.invalidParameterValue "Boot ISO file not found")
    else .ok (some href)

/-- The deployment info assembled by boot.py _parse_deploy_info. -/
structure DeployInfo where
  image_source : String
  irmc_deploy_iso : String
  irmc_boot_iso : Option String
deriving DecidableEq

/-- boot.py _parse_deploy_info: merges the instance image info, the
driver info and the instance info. -/
def _parse_deploy_info (conf : Conf) (s : SimState) : Except Err DeployInfo :=
  match get_image_instance_info s with
  | .error e => .error e
  | .ok src =>
    match _parse_driver_info conf s with
    | .error e => .error e
    | .ok dep =>
      match _parse_instance_info conf s with
      | .error e => .error e
      | .ok bi => .ok { image_source := src, irmc_deploy_iso := dep, irmc_boot_iso := bi }

/-- Writing a value under driver_internal_info['irmc_boot_iso']. -/
def setDIIBootIso (s : SimState) (v : String) : SimState :=
  { s with node := { s.node with driver_internal_info :=
      { s.node.driver_internal_info with irmc_boot_iso := some v } } }

/-- State reached by the tail of every _prepare_boot_iso branch: the
chosen boot-ISO artifact name is written into driver_internal_info and
the node is saved. -/
def persistBootIsoName (s : SimState) (v : String) : SimState :=
  (node_save (setDIIBootIso s v)).1

/-- boot.py _prepare_boot_iso: an explicit instance boot-ISO reference
is reused (bare file name) or fetched into the node-derived boot name;
otherwise the boot ISO is built under the node-derived boot name.  In
every branch the chosen name is stored into driver_internal_info and
the node saved before returning. -/
def _prepare_boot_iso (conf : Conf) (env : Env) (s : SimState)
    (root_uuid : String) : Res :=
  match _parse_deploy_info conf s with
  | .error e => .error e
  | .ok deploy_info =>
    match deploy_info.irmc_boot_iso with
    | some boot_iso_href =>
      if is_image_href_ordinary_file_name boot_iso_href then
        .ok (persistBootIsoName s boot_iso_href, [Op.nodeSave])
      else
        let boot_iso_filename := _get_boot_iso_name s.node
        let boot_iso_fullpathname :=
          osPathJoin conf.remote_image_share_root boot_iso_filename
        if env.fetchOk then
          .ok (persistBootIsoName (addShareFile s boot_iso_fullpathname)
              boot_iso_filename,
            [Op.fetchImage boot_iso_href boot_iso_fullpathname, Op.nodeSave])
        else .error (Err.imageRefValidationFailed boot_iso_href)
    | none =>
      let boot_iso_filename := _get_boot_iso_name s.node
      let boot_iso_fullpathname :=
        osPathJoin conf.remote_image_share_root boot_iso_filename
      if env.buildOk then
        .ok (persistBootIsoName (addShareFile s boot_iso_fullpathname)
            boot_iso_filename,
          [Op.createBootIso boot_iso_fullpathname, Op.nodeSave])
      else .error (Err.imageCreationFailed "boot iso")

/-- boot.py attach_boot_iso_if_needed: only when driver_internal_info
records an irmc_boot_iso name and the provision state is ACTIVE, re-run
the vmedia setup with the recorded name and select CD boot. -/
def attach_boot_iso_if_needed (conf : Conf) (env : Env) (s : SimState) : Res :=
  match s.node.driver_internal_info.irmc_boot_iso with
  | some iso =>
    if s.node.provision_state == ACTIVE then
      bindRes (_setup_vmedia_for_boot conf env s iso none)
        (fun s1 => .ok (node_set_boot_device s1 CDROM false))
    else .ok (s, [])
  | none => .ok (s, [])

/-- boot.py IRMCVirtualMediaBoot.prepare_ramdisk: a no-op unless the
provision state is DEPLOYING or CLEANING; otherwise adds the BOOTIF
option and runs _setup_deploy_iso. -/
def prepare_ramdisk (conf : Conf) (env : Env) (s : SimState)
    (ramdisk_params : List (String × String)) : Res :=
  if s.node.provision_state ≠ DEPLOYING ∧ s.node.provision_state ≠ CLEANING then
    .ok (s, [])
  else
    _setup_deploy_iso conf env s
      (ramdisk_params ++ [("BOOTIF", s.node.deploy_nic_mac)])

/-- boot.py IRMCVirtualMediaBoot.clean_up_ramdisk. -/
def clean_up_ramdisk (conf : Conf) (env : Env) (s : SimState) : Res :=
  _cleanup_vmedia_boot conf env s

/-- boot.py IRMCVirtualMediaBoot._configure_vmedia_boot: prepare the
boot ISO, attach it through the vmedia setup sequence, and set the CD
as the persistent boot device. -/
def _configure_vmedia_boot (conf : Conf) (env : Env) (s : SimState)
    (root_uuid_or_disk_id : String) : Res :=
  bindRes (_prepare_boot_iso conf env s root_uuid_or_disk_id) (fun s1 =>
    match s1.node.driver_internal_info.irmc_boot_iso with
    | none => .error (Err.keyError "irmc_boot_iso")
    | some iso =>
      bindRes (_setup_vmedia_for_boot conf env s1 iso none)
        (fun s2 => .ok (node_set_boot_device s2 CDROM true)))

/-- boot.py IRMCVirtualMediaBoot.prepare_instance: clean up the deploy
media first; local boot or a whole-disk image selects persistent disk
boot, otherwise vmedia boot is configured from root_uuid_or_disk_id. -/
def prepare_instance (conf : Conf) (env : Env) (s : SimState) : Res :=
  bindRes (_cleanup_vmedia_boot conf env s) (fun s1 =>
    if s1.node.boot_option == "local"
        || s1.node.driver_internal_info.is_whole_disk_image then
      .ok (node_set_boot_device s1 DISK true)
    else
      match s1.node.driver_internal_info.root_uuid_or_disk_id with
      | none => .error (Err.keyError "root_uuid_or_disk_id")
      | some r => _configure_vmedia_boot conf env s1 r)

/-- Clearing of the two persisted keys popped by clean_up_instance. -/
def clearDII (n : Node) : Node :=
  { n with driver_internal_info :=
      { n.driver_internal_info with
        irmc_boot_iso := none
        root_uuid_or_disk_id := none } }

/-- boot.py IRMCVirtualMediaBoot.clean_up_instance: remove the boot-ISO
artifact, pop irmc_boot_iso and root_uuid_or_disk_id, save the node,
then run _cleanup_vmedia_boot. -/
def clean_up_instance (conf : Conf) (env : Env) (s : SimState) : Res :=
  let r1 := _remove_share_file conf env s (_get_boot_iso_name s.node)
  let s2 := { r1.1 with node := clearDII r1.1.node }
  let r3 := node_save s2
  match _cleanup_vmedia_boot conf env r3.1 with
  | .error e => .error e
  | .ok (s4, t4) => .ok (s4, r1.2 ++ r3.2 ++ t4)

/-- Trace projection of a result. -/
def resOps : Res → Option (List Op)
  | .ok (_, t) => some t
  | .error _ => none

/-- State projection of a result. -/
def resState : Res → Option SimState
  | .ok (s, _) => some s
  | .error _ => none

/-- Whether a result is the shared-filesystem-unavailable failure. -/
def isSharedFsUnavailable : Res → Bool
  | .error (Err.sharedFsNotMounted _) => true
  | _ => false

/-- Whether an operation attaches virtual media. -/
def isAttachOp : Op → Bool
  | .attachCD _ => true
  | .attachFD _ => true
  | _ => false

/-! ## Concrete fixtures used by witnesses and counterexamples -/

/-- Fixture: an ACTIVE node with a recorded boot-ISO name. -/
abbrev node0 : Node :=
  { uuid := "n1"
    provision_state := ACTIVE
    driver_info := { irmc_deploy_iso := some "http://img/deploy.iso" }
    instance_info :=
      { irmc_boot_iso := none
        image_source := some "glance-img-1"
        kernel := some "k1"
        ramdisk := some "r1" }
    driver_internal_info :=
      { irmc_boot_iso := some "boot-n1.iso"
        root_uuid_or_disk_id := some "uuid-123"
        is_whole_disk_image := false }
    boot_option := "netboot"
    deploy_nic_mac := "aa:bb:cc:dd:ee:ff" }

/-- Fixture: the default-like configuration, whose local mount root and
export name differ. -/
abbrev conf0 : Conf :=
  { remote_image_share_root := "/remote_image_share_root"
    remote_image_share_name := "share" }

/-- Fixture: all collaborators succeed. -/
abbrev env0 : Env :=
  { scciOk := true
    fetchOk := true
    buildOk := true
    copyOk := true
    unlinkRaises := false }

/-- Fixture: mounted share, empty share, nothing attached. -/
abbrev state0 : SimState :=
  { node := node0
    savedNode := node0
    share := []
    cdAttached := none
    fdAttached := none
    bootDevice := none
    shareRootIsDir := true
    shareRootMounted := true }

/-- Fixture: the same state with the share root not mounted. -/
abbrev stateUnmounted : SimState := { state0 with shareRootMounted := false }

/-- Fixture: the same node in the DEPLOYING provisioning phase. -/
abbrev stateDeploying : SimState :=
  { state0 with node := { node0 with provision_state := DEPLOYING } }

/-- Fixture: end state of a vmedia setup sequence with no floppy. -/
abbrev stateCdOnly : SimState := { state0 with cdAttached := some "boot-n1.iso" }

/-! ## Claim C9 -/

/-- Claim C9: for every node the deploy-ISO name function is a pure
function (so two calls with the same node give the same string, no I/O
and no failure being possible by construction), and the deploy-ISO name
never equals the boot-ISO name of the same node. -/
theorem iso_name_deterministic_and_role_unique (n : Node) :
    _get_deploy_iso_name n = _get_deploy_iso_name n ∧
    _get_deploy_iso_name n ≠ _get_boot_iso_name n := by
  refine ⟨rfl, fun h => ?_⟩
  have h2 := congrArg String.length h
  simp only [_get_deploy_iso_name, _get_boot_iso_name, String.length_append] at h2
  have e1 : ("deploy-" : String).length = 7 := rfl
  have e2 : ("boot-" : String).length = 5 := rfl
  have e3 : (".iso" : String).length = 4 := rfl
  rw [e1, e2, e3] at h2
  omega

/-! ## Claim C5 -/

/-- Claim C5: prepare_ramdisk invoked while the provision state is
neither DEPLOYING nor CLEANING returns immediately: no operation is
performed and the state is unchanged. -/
theorem prepare_ramdisk_noop_outside_deploy_clean
    (conf : Conf) (env : Env) (s : SimState)
    (ramdisk_params : List (String × String))
    (h1 : s.node.provision_state ≠ DEPLOYING)
    (h2 : s.node.provision_state ≠ CLEANING) :
    prepare_ramdisk conf env s ramdisk_params = .ok (s, []) := by
  unfold prepare_ramdisk
  rw [if_pos ⟨h1, h2⟩]

/-- Witness for C5 at a concrete ACTIVE node. -/
theorem prepare_ramdisk_noop_witness :
    state0.node.provision_state ≠ DEPLOYING ∧
    state0.node.provision_state ≠ CLEANING ∧
    prepare_ramdisk conf0 env0 state0 [] = .ok (state0, []) :=
  ⟨by simp [ACTIVE, DEPLOYING], by simp [ACTIVE, CLEANING],
    prepare_ramdisk_noop_outside_deploy_clean conf0 env0 state0 []
      (by simp [ACTIVE, DEPLOYING]) (by simp [ACTIVE, CLEANING])⟩

/-! ## Claim C10 -/

/-- Claim C10: the vmedia setup sequence with an empty parameters
dictionary behaves exactly as with no parameters at all, and the
no-parameters run stages and attaches no floppy. -/
theorem setup_vmedia_empty_params_eq_none
    (conf : Conf) (env : Env) (s : SimState) (iso : String) :
    _setup_vmedia_for_boot conf env s iso (some []) =
      _setup_vmedia_for_boot conf env s iso none ∧
    (∀ s' t, _setup_vmedia_for_boot conf env s iso none = .ok (s', t) →
      (∀ p prm, Op.createFloppy p prm ∉ t) ∧ (∀ f, Op.attachFD f ∉ t)) := by
  constructor
  · rfl
  · intro s' t heq
    by_cases hs : env.scciOk = true
    · simp [_setup_vmedia_for_boot, bindRes, _detach_virtual_cd,
        _detach_virtual_fd, _attach_virtual_cd, truthyParams, hs] at heq
      obtain ⟨-, ht⟩ := heq
      subst ht
      constructor
      · intro p prm
        simp
      · intro f
        simp
    · simp [_setup_vmedia_for_boot, bindRes, _detach_virtual_cd, hs] at heq

/-- Witness for C10 at a concrete state. -/
theorem setup_vmedia_empty_params_witness :
    _setup_vmedia_for_boot conf0 env0 state0 "boot-n1.iso" (some []) =
      _setup_vmedia_for_boot conf0 env0 state0 "boot-n1.iso" none ∧
    (∀ f, Op.attachFD f ∉ [Op.detachCD, Op.detachFD, Op.attachCD "boot-n1.iso"]) :=
  ⟨(setup_vmedia_empty_params_eq_none conf0 env0 state0 "boot-n1.iso").1,
    fun f => ((setup_vmedia_empty_params_eq_none conf0 env0 state0
      "boot-n1.iso").2 stateCdOnly
      [Op.detachCD, Op.detachFD, Op.attachCD "boot-n1.iso"] rfl).2 f⟩

/-! ## Claim C4 -/

/-- Claim C4: the vmedia setup sequence performs, in this fixed order:
detach CD, detach floppy (both unconditional, for every prior state),
then only when parameters were supplied the staging and attach of a
floppy embedding them, and finally the attach of the CD with the target
ISO name; and nothing else. -/
theorem setup_vmedia_op_order
    (conf : Conf) (env : Env) (s : SimState) (iso : String)
    (params : Option (List (String × String)))
    (hs : env.scciOk = true) :
    (truthyParams params = false →
      resOps (_setup_vmedia_for_boot conf env s iso params) =
        some [Op.detachCD, Op.detachFD, Op.attachCD iso]) ∧
    (truthyParams params = true → env.buildOk = true → env.copyOk = true →
      resOps (_setup_vmedia_for_boot conf env s iso params) =
        some [Op.detachCD, Op.detachFD,
          Op.createFloppy
            (osPathJoin conf.remote_image_share_root (_get_floppy_image_name s.node))
            (params.getD []),
          Op.attachFD (_get_floppy_image_name s.node),
          Op.attachCD iso]) := by
  constructor
  · intro hp
    simp [_setup_vmedia_for_boot, bindRes, _detach_virtual_cd, _detach_virtual_fd,
      _attach_virtual_cd, hs, hp, resOps]
  · intro hp hb hc
    simp [_setup_vmedia_for_boot, bindRes, _detach_virtual_cd, _detach_virtual_fd,
      _attach_virtual_cd, _attach_virtual_fd, _prepare_floppy_image, addShareFile,
      hs, hp, hb, hc, resOps]

/-- Witness for C4 at concrete inputs, for both the no-floppy and the
floppy branch. -/
theorem setup_vmedia_op_order_witness :
    resOps (_setup_vmedia_for_boot conf0 env0 state0 "boot-n1.iso" none) =
      some [Op.detachCD, Op.detachFD, Op.attachCD "boot-n1.iso"] ∧
    resOps (_setup_vmedia_for_boot conf0 env0 state0 "deploy-n1.iso"
        (some [("BOOTIF", "aa:bb:cc:dd:ee:ff")])) =
      some [Op.detachCD, Op.detachFD,
        Op.createFloppy "/remote_image_share_root/image-n1.img"
          [("BOOTIF", "aa:bb:cc:dd:ee:ff")],
        Op.attachFD "image-n1.img", Op.attachCD "deploy-n1.iso"] :=
  ⟨(setup_vmedia_op_order conf0 env0 state0 "boot-n1.iso" none rfl).1 rfl,
    by
      have h := (setup_vmedia_op_order conf0 env0 state0 "deploy-n1.iso"
        (some [("BOOTIF", "aa:bb:cc:dd:ee:ff")]) rfl).2 rfl rfl rfl
      simpa [osPathJoin, _get_floppy_image_name] using h⟩

/-! ## Claim C2 -/

/-- Claim C2 (amended): when driver_internal_info records an
irmc_boot_iso name and the provision state is ACTIVE,
attach_boot_iso_if_needed re-runs only the vmedia attach sequence with
the recorded name (no fetch, build or staging operation) and selects
the virtual CD as boot device non-persistently; in every other case it
performs no operation and leaves the state unchanged. -/
theorem attach_boot_iso_if_needed_charac
    (conf : Conf) (env : Env) (s : SimState) :
    (∀ iso, s.node.driver_internal_info.irmc_boot_iso = some iso →
      s.node.provision_state = ACTIVE → env.scciOk = true →
      attach_boot_iso_if_needed conf env s =
        .ok ({ s with
            cdAttached := some iso
            fdAttached := none
            bootDevice := some (CDROM, false) },
          [Op.detachCD, Op.detachFD, Op.attachCD iso,
            Op.setBootDevice CDROM false])) ∧
    ((s.node.driver_internal_info.irmc_boot_iso = none ∨
        s.node.provision_state ≠ ACTIVE) →
      attach_boot_iso_if_needed conf env s = .ok (s, [])) := by
  constructor
  · intro iso hi ha hs
    simp [attach_boot_iso_if_needed, hi, ha, hs, _setup_vmedia_for_boot, bindRes,
      _detach_virtual_cd, _detach_virtual_fd, _attach_virtual_cd, truthyParams,
      node_set_boot_device]
  · intro hcase
    cases hio : s.node.driver_internal_info.irmc_boot_iso with
    | none => simp [attach_boot_iso_if_needed, hio]
    | some iso =>
      rcases hcase with hnone | hstate
      · rw [hio] at hnone; cases hnone
      · simp [attach_boot_iso_if_needed, hio, hstate]

/-- Counterexample for C2 as stated: on a node with a recorded boot-ISO
name in the ACTIVE state the boot device is set non-persistently
(persistent flag false); no persistent CD selection occurs. -/
theorem attach_boot_iso_sets_nonpersistent_boot :
    attach_boot_iso_if_needed conf0 env0 state0 =
      .ok ({ state0 with
          cdAttached := some "boot-n1.iso"
          fdAttached := none
          bootDevice := some (CDROM, false) },
        [Op.detachCD, Op.detachFD, Op.attachCD "boot-n1.iso",
          Op.setBootDevice CDROM false]) ∧
    Op.setBootDevice CDROM true ∉
      [Op.detachCD, Op.detachFD, Op.attachCD "boot-n1.iso",
        Op.setBootDevice CDROM false] :=
  ⟨rfl, by decide⟩

/-- Witness for C2 at concrete inputs for both branches. -/
theorem attach_boot_iso_if_needed_witness :
    state0.node.driver_internal_info.irmc_boot_iso = some "boot-n1.iso" ∧
    state0.node.provision_state = ACTIVE ∧
    attach_boot_iso_if_needed conf0 env0 state0 =
      .ok ({ state0 with
          cdAttached := some "boot-n1.iso"
          fdAttached := none
          bootDevice := some (CDROM, false) },
        [Op.detachCD, Op.detachFD, Op.attachCD "boot-n1.iso",
          Op.setBootDevice CDROM false]) ∧
    attach_boot_iso_if_needed conf0 env0 stateDeploying = .ok (stateDeploying, []) :=
  ⟨rfl, rfl,
    (attach_boot_iso_if_needed_charac conf0 env0 state0).1 "boot-n1.iso" rfl rfl rfl,
    (attach_boot_iso_if_needed_charac conf0 env0 stateDeploying).2
      (Or.inr (by simp [DEPLOYING, ACTIVE]))⟩

/-! ## Claim C1 -/

/-- Whether an error is the shared-filesystem-unavailable failure. -/
def errIsMount : Err → Bool
  | .sharedFsNotMounted _ => true
  | _ => false

lemma isSFU_error (e : Err) :
    isSharedFsUnavailable (.error e) = errIsMount e := by
  cases e <;> rfl

lemma isSFU_bindRes {r : Res} {f : SimState → Res}
    (hr : isSharedFsUnavailable r = false)
    (hf : ∀ s, isSharedFsUnavailable (f s) = false) :
    isSharedFsUnavailable (bindRes r f) = false := by
  cases hr2 : r with
  | error e => rw [hr2] at hr; simpa [bindRes] using hr
  | ok p =>
    obtain ⟨s1, t1⟩ := p
    have hfs := hf s1
    cases hf2 : f s1 with
    | error e => rw [hf2] at hfs; simpa [bindRes, hr2, hf2] using hfs
    | ok q => simp [bindRes, hr2, hf2, isSharedFsUnavailable]

lemma gi_errs (s : SimState) :
    ∀ e, get_image_instance_info s = .error e → errIsMount e = false := by
  intro e h
  unfold get_image_instance_info at h
  split at h <;> (try split_ifs at h) <;> cases h <;> rfl

lemma parse_driver_errs (conf : Conf) (s : SimState) :
    ∀ e, _parse_driver_info conf s = .error e → errIsMount e = false := by
  intro e h
  unfold _parse_driver_info at h
  split at h <;> (try split_ifs at h) <;> cases h <;> rfl

lemma parse_instance_errs (conf : Conf) (s : SimState) :
    ∀ e, _parse_instance_info conf s = .error e → errIsMount e = false := by
  intro e h
  unfold _parse_instance_info at h
  split at h <;> (try split_ifs at h) <;> cases h <;> rfl

lemma parse_deploy_errs (conf : Conf) (s : SimState) :
    ∀ e, _parse_deploy_info conf s = .error e → errIsMount e = false := by
  intro e h
  unfold _parse_deploy_info at h
  cases h1 : get_image_instance_info s with
  | error e1 =>
    rw [h1] at h
    injection h with h2
    exact h2 ▸ gi_errs s e1 h1
  | ok src =>
    rw [h1] at h
    cases h2 : _parse_driver_info conf s with
    | error e2 =>
      rw [h2] at h
      injection h with h3
      exact h3 ▸ parse_driver_errs conf s e2 h2
    | ok dep =>
      rw [h2] at h
      cases h3 : _parse_instance_info conf s with
      | error e3 =>
        rw [h3] at h
        injection h with h4
        exact h4 ▸ parse_instance_errs conf s e3 h3
      | ok bi => rw [h3] at h; cases h

lemma isSFU_setup (conf : Conf) (env : Env) (s : SimState) (iso : String)
    (params : Option (List (String × String))) :
    isSharedFsUnavailable (_setup_vmedia_for_boot conf env s iso params) = false := by
  cases hs : env.scciOk <;> cases hb : env.buildOk <;> cases hc : env.copyOk <;>
    cases hp : truthyParams params <;>
      simp [_setup_vmedia_for_boot, bindRes, _detach_virtual_cd, _detach_virtual_fd,
        _attach_virtual_cd, _attach_virtual_fd, _prepare_floppy_image,
        hs, hb, hc, hp, isSharedFsUnavailable]

lemma isSFU_cleanup (conf : Conf) (env : Env) (s : SimState) :
    isSharedFsUnavailable (_cleanup_vmedia_boot conf env s) = false := by
  cases hs : env.scciOk <;>
    simp [_cleanup_vmedia_boot, bindRes, _detach_virtual_cd, _detach_virtual_fd,
      _remove_share_file, unlink_without_raise, hs, isSharedFsUnavailable]

lemma isSFU_setup_deploy (conf : Conf) (env : Env) (s : SimState)
    (opts : List (String × String)) :
    isSharedFsUnavailable (_setup_deploy_iso conf env s opts) = false := by
  unfold _setup_deploy_iso
  cases hd : s.node.driver_info.irmc_deploy_iso with
  | none => simp [isSharedFsUnavailable]
  | some href =>
    apply isSFU_bindRes
    · by_cases ho : is_image_href_ordinary_file_name href = true
      · simp [ho, isSharedFsUnavailable]
      · by_cases hf : env.fetchOk = true <;>
          simp [ho, hf, isSharedFsUnavailable]
    · intro s1
      apply isSFU_bindRes (isSFU_setup conf env s1 _ _)
      intro s2
      simp [node_set_boot_device, isSharedFsUnavailable]

lemma isSFU_prepare_ramdisk (conf : Conf) (env : Env) (s : SimState)
    (params : List (String × String)) :
    isSharedFsUnavailable (prepare_ramdisk conf env s params) = false := by
  unfold prepare_ramdisk
  split
  · rfl
  · exact isSFU_setup_deploy conf env s _

lemma isSFU_prepare_boot_iso (conf : Conf) (env : Env) (s : SimState)
    (r : String) :
    isSharedFsUnavailable (_prepare_boot_iso conf env s r) = false := by
  unfold _prepare_boot_iso
  cases hp : _parse_deploy_info conf s with
  | error e => simp [isSFU_error, parse_deploy_errs conf s e hp]
  | ok di =>
    cases hb : di.irmc_boot_iso with
    | some href =>
      simp only [hb]
      split_ifs <;> simp [isSharedFsUnavailable]
    | none =>
      simp only [hb]
      split_ifs <;> simp [isSharedFsUnavailable]

lemma isSFU_configure (conf : Conf) (env : Env) (s : SimState) (r : String) :
    isSharedFsUnavailable (_configure_vmedia_boot conf env s r) = false := by
  unfold _configure_vmedia_boot
  apply isSFU_bindRes (isSFU_prepare_boot_iso conf env s r)
  intro s1
  cases hb : s1.node.driver_internal_info.irmc_boot_iso with
  | none => simp [isSharedFsUnavailable]
  | some iso =>
    apply isSFU_bindRes (isSFU_setup conf env s1 iso none)
    intro s2
    simp [node_set_boot_device, isSharedFsUnavailable]

lemma isSFU_prepare_instance (conf : Conf) (env : Env) (s : SimState) :
    isSharedFsUnavailable (prepare_instance conf env s) = false := by
  unfold prepare_instance
  apply isSFU_bindRes (isSFU_cleanup conf env s)
  intro s1
  split
  · simp [node_set_boot_device, isSharedFsUnavailable]
  · cases hr : s1.node.driver_internal_info.root_uuid_or_disk_id with
    | none => simp [isSharedFsUnavailable]
    | some r => exact isSFU_configure conf env s1 r

lemma isSFU_clean_up_instance (conf : Conf) (env : Env) (s : SimState) :
    isSharedFsUnavailable (clean_up_instance conf env s) = false := by
  cases hs : env.scciOk <;>
    simp [clean_up_instance, _cleanup_vmedia_boot, bindRes, _detach_virtual_cd,
      _detach_virtual_fd, _remove_share_file, unlink_without_raise, node_save,
      hs, isSharedFsUnavailable]

/-- Claim C1 (amended): the four phase entry points perform no mount
check themselves: none of them can fail with the
shared-filesystem-unavailable error, whatever the mount state; the
check lives in check_share_fs_mounted, invoked from the boot-interface
constructor (and validate), which fails with IRMCSharedFileSystemNotMounted
whenever the share root is a directory but not a mount point. -/
theorem shared_fs_check_only_in_constructor_and_validate :
    (∀ conf env s params,
      isSharedFsUnavailable (prepare_ramdisk conf env s params) = false) ∧
    (∀ conf env s, isSharedFsUnavailable (clean_up_ramdisk conf env s) = false) ∧
    (∀ conf env s, isSharedFsUnavailable (prepare_instance conf env s) = false) ∧
    (∀ conf env s, isSharedFsUnavailable (clean_up_instance conf env s) = false) ∧
    (∀ conf s, s.shareRootIsDir = true → s.shareRootMounted = false →
      IRMCVirtualMediaBoot.init conf s =
        .error (Err.sharedFsNotMounted conf.remote_image_share_root)) := by
  refine ⟨?_, ?_, ?_, ?_, ?_⟩
  · intro conf env s params; exact isSFU_prepare_ramdisk conf env s params
  · intro conf env s; exact isSFU_cleanup conf env s
  · intro conf env s; exact isSFU_prepare_instance conf env s
  · intro conf env s; exact isSFU_clean_up_instance conf env s
  · intro conf s h1 h2
    simp [IRMCVirtualMediaBoot.init, check_share_fs_mounted,
      _parse_config_option, h1, h2]

/-- Counterexample for C1 as stated: with the share root not mounted,
clean_up_ramdisk does not fail with the shared-filesystem-unavailable
error; it returns normally and performs controller and file
operations. -/
theorem clean_up_ramdisk_proceeds_when_share_unmounted :
    stateUnmounted.shareRootMounted = false ∧
    clean_up_ramdisk conf0 env0 stateUnmounted =
      .ok (stateUnmounted,
        [Op.detachCD, Op.detachFD, Op.removeFile "share/image-n1.img",
          Op.removeFile "share/deploy-n1.iso"]) := ⟨rfl, rfl⟩

/-- Witness for C1 at concrete inputs. -/
theorem shared_fs_check_witness :
    isSharedFsUnavailable (prepare_ramdisk conf0 env0 stateUnmounted []) = false ∧
    stateUnmounted.shareRootIsDir = true ∧
    stateUnmounted.shareRootMounted = false ∧
    IRMCVirtualMediaBoot.init conf0 stateUnmounted =
      .error (Err.sharedFsNotMounted conf0.remote_image_share_root) :=
  ⟨shared_fs_check_only_in_constructor_and_validate.1 conf0 env0 stateUnmounted [],
    rfl, rfl,
    shared_fs_check_only_in_constructor_and_validate.2.2.2.2 conf0 stateUnmounted
      rfl rfl⟩

/-! ## Cleanup characterization (used by claims C6 and C7) -/

/-- The operation trace of _cleanup_vmedia_boot. -/
def cleanupOps (conf : Conf) (n : Node) : List Op :=
  [Op.detachCD, Op.detachFD,
    Op.removeFile (osPathJoin conf.remote_image_share_name (_get_floppy_image_name n)),
    Op.removeFile (osPathJoin conf.remote_image_share_name (_get_deploy_iso_name n))]

/-- The end state of _cleanup_vmedia_boot. -/
def cleanupState (conf : Conf) (env : Env) (s : SimState) : SimState :=
  { s with
    cdAttached := none
    fdAttached := none
    share := unlinkShare env
      (unlinkShare env s.share
        (osPathJoin conf.remote_image_share_name (_get_floppy_image_name s.node)))
      (osPathJoin conf.remote_image_share_name (_get_deploy_iso_name s.node)) }

lemma cleanup_spec {conf : Conf} {env : Env} {s : SimState}
    (hs : env.scciOk = true) :
    _cleanup_vmedia_boot conf env s =
      .ok (cleanupState conf env s, cleanupOps conf s.node) := by
  simp [_cleanup_vmedia_boot, bindRes, _detach_virtual_cd, _detach_virtual_fd,
    _remove_share_file, unlink_without_raise, hs, cleanupState, cleanupOps]

lemma removePath_idem (l : List String) (p : String) :
    removePath (removePath l p) p = removePath l p := by
  simp [removePath, List.filter_filter, Bool.and_self]

lemma removePath_comm (l : List String) (a b : String) :
    removePath (removePath l a) b = removePath (removePath l b) a := by
  simp only [removePath, List.filter_filter]
  congr 1
  funext q
  exact Bool.and_comm _ _

lemma unlinkShare_idem (env : Env) (l : List String) (p : String) :
    unlinkShare env (unlinkShare env l p) p = unlinkShare env l p := by
  cases h : env.unlinkRaises <;> simp [unlinkShare, h, removePath_idem]

lemma unlinkShare_comm (env : Env) (l : List String) (a b : String) :
    unlinkShare env (unlinkShare env l a) b =
      unlinkShare env (unlinkShare env l b) a := by
  cases h : env.unlinkRaises with
  | false =>
    simp only [unlinkShare, h, Bool.false_eq_true, if_false]
    exact removePath_comm l a b
  | true => simp [unlinkShare, h]

lemma unlinkShare_absorb (env : Env) (l : List String) (a p : String) :
    unlinkShare env (unlinkShare env (unlinkShare env l p) a) p =
      unlinkShare env (unlinkShare env l p) a := by
  rw [unlinkShare_comm env (unlinkShare env l p) a p, unlinkShare_idem]

lemma unlinkShare_pair_idem (env : Env) (sh : List String) (p1 p2 : String) :
    unlinkShare env (unlinkShare env
        (unlinkShare env (unlinkShare env sh p1) p2) p1) p2 =
      unlinkShare env (unlinkShare env sh p1) p2 := by
  rw [unlinkShare_absorb env sh p2 p1, unlinkShare_idem]

lemma unlinkShare_triple_idem (env : Env) (sh : List String) (p0 p1 p2 : String) :
    unlinkShare env (unlinkShare env (unlinkShare env
        (unlinkShare env (unlinkShare env (unlinkShare env sh p0) p1) p2)
        p0) p1) p2 =
      unlinkShare env (unlinkShare env (unlinkShare env sh p0) p1) p2 := by
  have h0 : unlinkShare env (unlinkShare env (unlinkShare env
      (unlinkShare env sh p0) p1) p2) p0
      = unlinkShare env (unlinkShare env (unlinkShare env sh p0) p1) p2 := by
    rw [unlinkShare_comm env (unlinkShare env (unlinkShare env sh p0) p1) p2 p0,
      unlinkShare_absorb env sh p1 p0]
  rw [h0, unlinkShare_absorb env (unlinkShare env sh p0) p2 p1, unlinkShare_idem]

lemma cleanupState_idem (conf : Conf) (env : Env) (s : SimState) :
    cleanupState conf env (cleanupState conf env s) = cleanupState conf env s := by
  simp [cleanupState, unlinkShare_pair_idem]

/-- The end state of clean_up_instance. -/
def cleanInstanceState (conf : Conf) (env : Env) (s : SimState) : SimState :=
  { s with
    node := clearDII s.node
    savedNode := clearDII s.node
    cdAttached := none
    fdAttached := none
    share := unlinkShare env (unlinkShare env (unlinkShare env s.share
        (osPathJoin conf.remote_image_share_name (_get_boot_iso_name s.node)))
        (osPathJoin conf.remote_image_share_name (_get_floppy_image_name s.node)))
      (osPathJoin conf.remote_image_share_name (_get_deploy_iso_name s.node)) }

/-- The operation trace of clean_up_instance. -/
def cleanInstanceOps (conf : Conf) (n : Node) : List Op :=
  Op.removeFile (osPathJoin conf.remote_image_share_name (_get_boot_iso_name n)) ::
    Op.nodeSave :: cleanupOps conf n

lemma clean_up_instance_spec {conf : Conf} {env : Env} {s : SimState}
    (hs : env.scciOk = true) :
    clean_up_instance conf env s =
      .ok (cleanInstanceState conf env s, cleanInstanceOps conf s.node) := by
  simp [clean_up_instance, _remove_share_file, unlink_without_raise, node_save,
    cleanup_spec hs, cleanupState, cleanupOps, cleanInstanceState,
    cleanInstanceOps, clearDII, _get_boot_iso_name, _get_floppy_image_name,
    _get_deploy_iso_name]

lemma clearDII_idem (n : Node) : clearDII (clearDII n) = clearDII n := by
  simp [clearDII]

lemma cleanInstanceState_idem (conf : Conf) (env : Env) (s : SimState) :
    cleanInstanceState conf env (cleanInstanceState conf env s) =
      cleanInstanceState conf env s := by
  simp [cleanInstanceState, clearDII, _get_boot_iso_name, _get_floppy_image_name,
    _get_deploy_iso_name, unlinkShare_triple_idem]

/-! ## Claim C6 -/

/-- Claim C6: clean_up_ramdisk and clean_up_instance are idempotent:
run on their own end state they return normally with the same end
state; and artifact removal treats a missing file as success (the state
is unchanged) and swallows an underlying unlink I/O error (the call
still returns the state unchanged rather than propagating). -/
theorem cleanup_idempotent :
    (∀ conf env s s1 t1, env.scciOk = true →
      clean_up_ramdisk conf env s = .ok (s1, t1) →
      ∃ t2, clean_up_ramdisk conf env s1 = .ok (s1, t2)) ∧
    (∀ conf env s s1 t1, env.scciOk = true →
      clean_up_instance conf env s = .ok (s1, t1) →
      ∃ t2, clean_up_instance conf env s1 = .ok (s1, t2)) ∧
    (∀ conf env s f, osPathJoin conf.remote_image_share_name f ∉ s.share →
      (_remove_share_file conf env s f).1 = s) ∧
    (∀ conf env s f, env.unlinkRaises = true →
      (_remove_share_file conf env s f).1 = s) := by
  refine ⟨?_, ?_, ?_, ?_⟩
  · intro conf env s s1 t1 hs heq
    rw [clean_up_ramdisk, cleanup_spec hs] at heq
    simp only [Except.ok.injEq, Prod.mk.injEq] at heq
    obtain ⟨h1, -⟩ := heq
    subst h1
    exact ⟨_, by rw [clean_up_ramdisk, cleanup_spec hs, cleanupState_idem]⟩
  · intro conf env s s1 t1 hs heq
    rw [clean_up_instance_spec hs] at heq
    simp only [Except.ok.injEq, Prod.mk.injEq] at heq
    obtain ⟨h1, -⟩ := heq
    subst h1
    exact ⟨_, by rw [clean_up_instance_spec hs, cleanInstanceState_idem]⟩
  · intro conf env s f hmem
    cases hu : env.unlinkRaises with
    | false =>
      have hfil : removePath s.share (osPathJoin conf.remote_image_share_name f)
          = s.share := by
        apply List.filter_eq_self.mpr
        intro a ha
        rw [bne_iff_ne]
        exact fun hq => hmem (hq ▸ ha)
      simp [_remove_share_file, unlink_without_raise, unlinkShare, hu, hfil]
    | true => simp [_remove_share_file, unlink_without_raise, unlinkShare, hu]
  · intro conf env s f hu
    simp [_remove_share_file, unlink_without_raise, unlinkShare, hu]

/-- Witness for C6 at concrete inputs. -/
theorem cleanup_idempotent_witness :
    (∃ t2, clean_up_ramdisk conf0 env0 (cleanupState conf0 env0 state0) =
      .ok (cleanupState conf0 env0 state0, t2)) ∧
    (∃ t2, clean_up_instance conf0 env0 (cleanInstanceState conf0 env0 state0) =
      .ok (cleanInstanceState conf0 env0 state0, t2)) ∧
    (_remove_share_file conf0 env0 state0 "boot-n1.iso").1 = state0 :=
  ⟨cleanup_idempotent.1 conf0 env0 state0 _ _ rfl (cleanup_spec rfl),
    cleanup_idempotent.2.1 conf0 env0 state0 _ _ rfl (clean_up_instance_spec rfl),
    cleanup_idempotent.2.2.1 conf0 env0 state0 "boot-n1.iso" (by simp)⟩

/-! ## Claim C7 -/

/-- Claim C7 (amended): clean_up_instance removes the boot-ISO artifact
first, then clears the persisted irmc_boot_iso and root_uuid_or_disk_id
fields, saves the node, and only then runs the unconditional
detach-CD/detach-floppy plus artifact-removal sequence — whose removals
target the floppy and the deploy-ISO artifacts (the very sequence
clean_up_ramdisk runs); the instance-phase boot-ISO artifact is the one
removed by the first step. -/
theorem clean_up_instance_order (conf : Conf) (env : Env) (s : SimState)
    (hs : env.scciOk = true) :
    clean_up_instance conf env s =
      .ok (cleanInstanceState conf env s,
        [Op.removeFile (osPathJoin conf.remote_image_share_name
            (_get_boot_iso_name s.node)),
          Op.nodeSave, Op.detachCD, Op.detachFD,
          Op.removeFile (osPathJoin conf.remote_image_share_name
            (_get_floppy_image_name s.node)),
          Op.removeFile (osPathJoin conf.remote_image_share_name
            (_get_deploy_iso_name s.node))]) ∧
    (cleanInstanceState conf env s).node.driver_internal_info.irmc_boot_iso = none ∧
    (cleanInstanceState conf env s).node.driver_internal_info.root_uuid_or_disk_id
      = none ∧
    (cleanInstanceState conf env s).savedNode = (cleanInstanceState conf env s).node := by
  refine ⟨?_, ?_, ?_, ?_⟩
  · have h := @clean_up_instance_spec conf env s hs
    simpa [cleanInstanceOps, cleanupOps] using h
  · simp [cleanInstanceState, clearDII]
  · simp [cleanInstanceState, clearDII]
  · simp [cleanInstanceState]

/-- Counterexample for C7 as stated: the removal inside the final
detach+remove sequence targets the deploy-phase artifacts (parameter
floppy and deploy ISO), not the instance-phase boot-ISO artifact. -/
theorem clean_up_instance_final_removals_are_deploy_artifacts :
    (resOps (clean_up_instance conf0 env0 state0)).map (List.drop 2) =
      some [Op.detachCD, Op.detachFD, Op.removeFile "share/image-n1.img",
        Op.removeFile "share/deploy-n1.iso"] ∧
    Op.removeFile "share/boot-n1.iso" ∉
      ([Op.detachCD, Op.detachFD, Op.removeFile "share/image-n1.img",
        Op.removeFile "share/deploy-n1.iso"] : List Op) :=
  ⟨rfl, by decide⟩

/-- Witness for C7 at concrete inputs. -/
theorem clean_up_instance_order_witness :
    env0.scciOk = true ∧
    clean_up_instance conf0 env0 state0 =
      .ok (cleanInstanceState conf0 env0 state0,
        [Op.removeFile "share/boot-n1.iso", Op.nodeSave, Op.detachCD, Op.detachFD,
          Op.removeFile "share/image-n1.img", Op.removeFile "share/deploy-n1.iso"]) :=
  ⟨rfl, by
    have h := (clean_up_instance_order conf0 env0 state0 rfl).1
    simpa [osPathJoin, _get_boot_iso_name, _get_floppy_image_name,
      _get_deploy_iso_name] using h⟩

/-! ## Claim C3 -/

/-- Fixture: a node ready for the boot-ISO build branch (no explicit
boot-ISO reference, root identifier persisted). -/
abbrev node3 : Node :=
  { node0 with
    driver_internal_info :=
      { irmc_boot_iso := none
        root_uuid_or_disk_id := some "uuid-123"
        is_whole_disk_image := false } }

/-- Fixture: the corresponding starting state. -/
abbrev s3start : SimState :=
  { state0 with node := node3, savedNode := node3 }

/-- The state after _prepare_boot_iso staged and persisted the built
boot ISO for node3. -/
abbrev s3mid : SimState :=
  persistBootIsoName (addShareFile s3start "/remote_image_share_root/boot-n1.iso")
    "boot-n1.iso"

/-- Claim C3 (code bug): _prepare_boot_iso stages the boot ISO under
remote_image_share_root, but clean_up_instance removes the boot-ISO
name joined with remote_image_share_name: at the default-like
configuration the removed path differs from the staged path and the
staged artifact survives the cleanup. -/
theorem clean_up_instance_removal_path_differs_from_staging_path :
    _prepare_boot_iso conf0 env0 s3start "uuid-123" =
      .ok (s3mid,
        [Op.createBootIso "/remote_image_share_root/boot-n1.iso", Op.nodeSave]) ∧
    s3mid.share = ["/remote_image_share_root/boot-n1.iso"] ∧
    resOps (clean_up_instance conf0 env0 s3mid) =
      some [Op.removeFile "share/boot-n1.iso", Op.nodeSave, Op.detachCD,
        Op.detachFD, Op.removeFile "share/image-n1.img",
        Op.removeFile "share/deploy-n1.iso"] ∧
    (resState (clean_up_instance conf0 env0 s3mid)).map SimState.share =
      some ["/remote_image_share_root/boot-n1.iso"] ∧
    osPathJoin conf0.remote_image_share_name (_get_boot_iso_name node3) ≠
      osPathJoin conf0.remote_image_share_root (_get_boot_iso_name node3) :=
  ⟨rfl, rfl, rfl, rfl, by simp [osPathJoin, _get_boot_iso_name]⟩

/-! ## Claim C8 -/

lemma parse_deploy_info_instance {conf : Conf} {s : SimState} {di : DeployInfo}
    (h : _parse_deploy_info conf s = .ok di) :
    _parse_instance_info conf s = .ok di.irmc_boot_iso := by
  unfold _parse_deploy_info at h
  cases h1 : get_image_instance_info s with
  | error e => rw [h1] at h; cases h
  | ok src =>
    rw [h1] at h
    cases h2 : _parse_driver_info conf s with
    | error e => rw [h2] at h; cases h
    | ok dep =>
      rw [h2] at h
      cases h3 : _parse_instance_info conf s with
      | error e => rw [h3] at h; cases h
      | ok bi =>
        rw [h3] at h
        injection h with h4
        rw [← h4]

lemma parse_instance_info_some {conf : Conf} {s : SimState} {href : String}
    (h : _parse_instance_info conf s = .ok (some href)) :
    s.node.instance_info.irmc_boot_iso = some href ∧ (href == "") = false := by
  unfold _parse_instance_info at h
  cases hx : s.node.instance_info.irmc_boot_iso with
  | none => simp only [hx] at h; simp at h
  | some v =>
    simp only [hx] at h
    by_cases he : (v == "") = true
    · rw [if_pos he] at h; simp at h
    · rw [if_neg he] at h
      have he2 : (v == "") = false := by simpa using he
      by_cases ho : is_image_href_ordinary_file_name v = true
      · rw [if_pos ho] at h
        by_cases hm : osPathJoin conf.remote_image_share_root v ∈ s.share
        · rw [if_pos hm] at h
          injection h with h2
          injection h2 with h3
          subst h3
          exact ⟨rfl, he2⟩
        · rw [if_neg hm] at h; cases h
      · rw [if_neg ho] at h
        injection h with h2
        injection h2 with h3
        subst h3
        exact ⟨rfl, he2⟩

lemma parse_instance_info_none {conf : Conf} {s : SimState}
    (h : _parse_instance_info conf s = .ok none) :
    truthyStr s.node.instance_info.irmc_boot_iso = false := by
  unfold _parse_instance_info at h
  cases hx : s.node.instance_info.irmc_boot_iso with
  | none => simp [truthyStr]
  | some v =>
    simp only [hx] at h
    by_cases he : (v == "") = true
    · simp [hx, truthyStr, he]
    · rw [if_neg he] at h
      by_cases ho : is_image_href_ordinary_file_name v = true
      · rw [if_pos ho] at h
        by_cases hm : osPathJoin conf.remote_image_share_root v ∈ s.share
        · rw [if_pos hm] at h; simp at h
        · rw [if_neg hm] at h; cases h
      · rw [if_neg ho] at h; simp at h

lemma bindRes_ok {r : Res} {f : SimState → Res} {s' : SimState} {t : List Op}
    (h : bindRes r f = .ok (s', t)) :
    ∃ s1 t1 t2, r = .ok (s1, t1) ∧ f s1 = .ok (s', t2) ∧ t = t1 ++ t2 := by
  cases hr : r with
  | error e => rw [hr] at h; simp [bindRes] at h
  | ok p =>
    obtain ⟨s1, t1⟩ := p
    rw [hr] at h
    simp only [bindRes] at h
    cases hf : f s1 with
    | error e => rw [hf] at h; cases h
    | ok q =>
      obtain ⟨s2, t2⟩ := q
      rw [hf] at h
      simp only [Except.ok.injEq, Prod.mk.injEq] at h
      obtain ⟨hA, hC⟩ := h
      subst hA
      exact ⟨s1, t1, t2, rfl, hf, hC.symm⟩

lemma persist_dii (s : SimState) (v : String) :
    (persistBootIsoName s v).node.driver_internal_info.irmc_boot_iso = some v := by
  simp [persistBootIsoName, node_save, setDIIBootIso]

lemma persist_saved (s : SimState) (v : String) :
    (persistBootIsoName s v).savedNode = (persistBootIsoName s v).node := by
  simp [persistBootIsoName, node_save, setDIIBootIso]

lemma prepare_boot_iso_cases {conf : Conf} {env : Env} {s : SimState}
    {r : String} {s' : SimState} {t : List Op}
    (h : _prepare_boot_iso conf env s r = .ok (s', t)) :
    (∃ href, s.node.instance_info.irmc_boot_iso = some href ∧
      (href == "") = false ∧
      ((is_image_href_ordinary_file_name href = true ∧
          s' = persistBootIsoName s href ∧ t = [Op.nodeSave]) ∨
        (is_image_href_ordinary_file_name href = false ∧
          s' = persistBootIsoName
            (addShareFile s (osPathJoin conf.remote_image_share_root
              (_get_boot_iso_name s.node))) (_get_boot_iso_name s.node) ∧
          t = [Op.fetchImage href (osPathJoin conf.remote_image_share_root
              (_get_boot_iso_name s.node)), Op.nodeSave]))) ∨
    (truthyStr s.node.instance_info.irmc_boot_iso = false ∧
      s' = persistBootIsoName
        (addShareFile s (osPathJoin conf.remote_image_share_root
          (_get_boot_iso_name s.node))) (_get_boot_iso_name s.node) ∧
      t = [Op.createBootIso (osPathJoin conf.remote_image_share_root
          (_get_boot_iso_name s.node)), Op.nodeSave]) := by
  unfold _prepare_boot_iso at h
  cases hp : _parse_deploy_info conf s with
  | error e => rw [hp] at h; cases h
  | ok di =>
    simp only [hp] at h
    have hpi := parse_deploy_info_instance hp
    cases hb : di.irmc_boot_iso with
    | some href =>
      simp only [hb] at h
      rw [hb] at hpi
      have hinst := parse_instance_info_some hpi
      by_cases ho : is_image_href_ordinary_file_name href = true
      · rw [if_pos ho] at h
        simp only [Except.ok.injEq, Prod.mk.injEq] at h
        obtain ⟨h1, h2⟩ := h
        exact Or.inl ⟨href, hinst.1, hinst.2, Or.inl ⟨ho, h1.symm, h2.symm⟩⟩
      · have ho2 : is_image_href_ordinary_file_name href = false := by simpa using ho
        rw [if_neg ho] at h
        by_cases hf : env.fetchOk = true
        · rw [if_pos hf] at h
          simp only [Except.ok.injEq, Prod.mk.injEq] at h
          obtain ⟨h1, h2⟩ := h
          exact Or.inl ⟨href, hinst.1, hinst.2, Or.inr ⟨ho2, h1.symm, h2.symm⟩⟩
        · rw [if_neg hf] at h; cases h
    | none =>
      simp only [hb] at h
      rw [hb] at hpi
      have hnone := parse_instance_info_none hpi
      by_cases hbuild : env.buildOk = true
      · rw [if_pos hbuild] at h
        simp only [Except.ok.injEq, Prod.mk.injEq] at h
        obtain ⟨h1, h2⟩ := h
        exact Or.inr ⟨hnone, h1.symm, h2.symm⟩
      · rw [if_neg hbuild] at h; cases h

/-- Claim C8: when the node's deploy info names an explicit boot-ISO
reference, _prepare_boot_iso reuses a bare file name directly or
fetches any other reference into the node-derived boot name, and never
invokes the boot-ISO builder; when no reference is present it always
invokes the builder with the freshly derived name; in both branches the
chosen artifact name is stored into driver_internal_info and the node
saved (the save being the last operation), and inside
_configure_vmedia_boot all of that precedes every attach operation. -/
theorem prepare_boot_iso_reuse_vs_build :
    (∀ conf env s r s' t,
      _prepare_boot_iso conf env s r = .ok (s', t) →
      ((truthyStr s.node.instance_info.irmc_boot_iso = true →
          ∀ p, Op.createBootIso p ∉ t) ∧
        (truthyStr s.node.instance_info.irmc_boot_iso = false →
          t = [Op.createBootIso (osPathJoin conf.remote_image_share_root
              (_get_boot_iso_name s.node)), Op.nodeSave] ∧
          s'.node.driver_internal_info.irmc_boot_iso =
            some (_get_boot_iso_name s.node)) ∧
        (∀ href, s.node.instance_info.irmc_boot_iso = some href → href ≠ "" →
          is_image_href_ordinary_file_name href = true →
          s'.node.driver_internal_info.irmc_boot_iso = some href) ∧
        (∀ href, s.node.instance_info.irmc_boot_iso = some href → href ≠ "" →
          is_image_href_ordinary_file_name href = false →
          s'.node.driver_internal_info.irmc_boot_iso =
            some (_get_boot_iso_name s.node) ∧
          Op.fetchImage href (osPathJoin conf.remote_image_share_root
            (_get_boot_iso_name s.node)) ∈ t) ∧
        s'.savedNode = s'.node ∧
        t.getLast? = some Op.nodeSave)) ∧
    (∀ conf env s r s' t,
      _configure_vmedia_boot conf env s r = .ok (s', t) →
      ∃ sMid t1 t2, _prepare_boot_iso conf env s r = .ok (sMid, t1) ∧
        t = t1 ++ t2 ∧ (∀ o ∈ t1, isAttachOp o = false) ∧
        t1.getLast? = some Op.nodeSave) := by
  constructor
  · intro conf env s r s' t h
    have hc := prepare_boot_iso_cases h
    refine ⟨?_, ?_, ?_, ?_, ?_, ?_⟩
    · intro htr p
      rcases hc with ⟨href, hfield, hne, hcase⟩ | ⟨hfalse, -, -⟩
      · rcases hcase with ⟨-, -, ht⟩ | ⟨-, -, ht⟩ <;> subst ht <;> simp
      · rw [htr] at hfalse; cases hfalse
    · intro htr
      rcases hc with ⟨href, hfield, hne, -⟩ | ⟨-, hs', ht⟩
      · rw [hfield] at htr
        simp [truthyStr, hne] at htr
      · exact ⟨ht, by rw [hs']; exact persist_dii _ _⟩
    · intro href' hfield' hne' ho'
      rcases hc with ⟨href, hfield, hne, hcase⟩ | ⟨hfalse, -, -⟩
      · have heq : href = href' := by
          rw [hfield] at hfield'; injection hfield'
        subst heq
        rcases hcase with ⟨-, hs', -⟩ | ⟨hoF, -, -⟩
        · rw [hs']; exact persist_dii _ _
        · rw [ho'] at hoF; cases hoF
      · rw [hfield'] at hfalse
        have hne2 : (href' == "") = false := by simpa using hne'
        simp [truthyStr, hne2] at hfalse
    · intro href' hfield' hne' ho'
      rcases hc with ⟨href, hfield, hne, hcase⟩ | ⟨hfalse, -, -⟩
      · have heq : href = href' := by
          rw [hfield] at hfield'; injection hfield'
        subst heq
        rcases hcase with ⟨hoT, -, -⟩ | ⟨-, hs', ht⟩
        · rw [ho'] at hoT; cases hoT
        · subst ht
          exact ⟨by rw [hs']; exact persist_dii _ _, by simp⟩
      · rw [hfield'] at hfalse
        have hne2 : (href' == "") = false := by simpa using hne'
        simp [truthyStr, hne2] at hfalse
    · rcases hc with ⟨href, -, -, ⟨-, hs', -⟩ | ⟨-, hs', -⟩⟩ | ⟨-, hs', -⟩ <;>
        rw [hs'] <;> exact persist_saved _ _
    · rcases hc with ⟨href, -, -, ⟨-, -, ht⟩ | ⟨-, -, ht⟩⟩ | ⟨-, -, ht⟩ <;>
        subst ht <;> rfl
  · intro conf env s r s' t h
    unfold _configure_vmedia_boot at h
    obtain ⟨s1, t1, t2, hprep, hrest, ht⟩ := bindRes_ok h
    refine ⟨s1, t1, t2, hprep, ht, ?_, ?_⟩
    · intro o ho
      have hc := prepare_boot_iso_cases hprep
      rcases hc with ⟨href, -, -, ⟨-, -, ht1⟩ | ⟨-, -, ht1⟩⟩ | ⟨-, -, ht1⟩
      · subst ht1
        simp at ho
        subst ho; rfl
      · subst ht1
        simp at ho
        rcases ho with rfl | rfl <;> rfl
      · subst ht1
        simp at ho
        rcases ho with rfl | rfl <;> rfl
    · have hc := prepare_boot_iso_cases hprep
      rcases hc with ⟨href, -, -, ⟨-, -, ht1⟩ | ⟨-, -, ht1⟩⟩ | ⟨-, -, ht1⟩ <;>
        subst ht1 <;> rfl

/-- Fixture: a node whose instance info names a bare boot-ISO file
already present on the share. -/
abbrev nodeR : Node :=
  { node0 with
    instance_info :=
      { irmc_boot_iso := some "myboot.iso"
        image_source := some "glance-img-1"
        kernel := some "k1"
        ramdisk := some "r1" } }

/-- Fixture: the corresponding starting state. -/
abbrev sRstart : SimState :=
  { state0 with
    node := nodeR
    savedNode := nodeR
    share := ["/remote_image_share_root/myboot.iso"] }

/-- Fixture: end state of _configure_vmedia_boot on the build fixture. -/
abbrev s8cfg : SimState :=
  { s3mid with cdAttached := some "boot-n1.iso", bootDevice := some (CDROM, true) }

/-- Witness for C8 at concrete inputs: the build branch, the
bare-file-name reuse branch, and the configure sequencing. -/
theorem prepare_boot_iso_reuse_vs_build_witness :
    (truthyStr s3start.node.instance_info.irmc_boot_iso = false ∧
      (_prepare_boot_iso conf0 env0 s3start "uuid-123" =
        .ok (s3mid, [Op.createBootIso "/remote_image_share_root/boot-n1.iso",
          Op.nodeSave]))) ∧
    ((persistBootIsoName sRstart "myboot.iso").node.driver_internal_info.irmc_boot_iso
      = some "myboot.iso") ∧
    (∃ sMid t1 t2,
      _prepare_boot_iso conf0 env0 s3start "uuid-123" = .ok (sMid, t1) ∧
      [Op.createBootIso "/remote_image_share_root/boot-n1.iso", Op.nodeSave,
        Op.detachCD, Op.detachFD, Op.attachCD "boot-n1.iso",
        Op.setBootDevice CDROM true] = t1 ++ t2 ∧
      (∀ o ∈ t1, isAttachOp o = false) ∧ t1.getLast? = some Op.nodeSave) :=
  ⟨⟨rfl, rfl⟩,
    (prepare_boot_iso_reuse_vs_build.1 conf0 env0 sRstart "uuid-123"
      (persistBootIsoName sRstart "myboot.iso") [Op.nodeSave] rfl).2.2.1
      "myboot.iso" rfl (by simp) rfl,
    prepare_boot_iso_reuse_vs_build.2 conf0 env0 s3start "uuid-123" s8cfg
      [Op.createBootIso "/remote_image_share_root/boot-n1.iso", Op.nodeSave,
        Op.detachCD, Op.detachFD, Op.attachCD "boot-n1.iso",
        Op.setBootDevice CDROM true] rfl⟩

end IrmcBoot
